import Mathlib

/-!
Verification development for the opencode rate-limit fallback plugin
(`src/plugin.ts`). The per-session state machine, pattern matcher, message
reconstructor and fallback sequence are embedded shallowly: the mutable
`Map` of session states becomes a function `String → Option SessionState`,
`Date.now()` becomes an explicit `now : Nat` parameter (one instant per
processed event), and the host client becomes an oracle `Host` describing
the outcome of each host call; the handler returns the updated store
together with the trace of host calls it performed. JavaScript truthiness
of a string (`""` and `undefined` are falsy) is modelled explicitly
wherever the code branches on it.
-/

namespace RateLimitFallback

/-- Embedding of `SessionState` (plugin.ts lines 5-8). -/
structure SessionState where
  fallbackActive : Bool
  cooldownEndTime : Nat
deriving DecidableEq

/-- Embedding of the `model` field of `MessageInfo` (plugin.ts lines 14-17). -/
structure ModelRef where
  providerID : String
  modelID : String
deriving DecidableEq

/-- Embedding of `MessageInfo` (plugin.ts lines 10-19). -/
structure MessageInfo where
  id : String
  role : String
  sessionID : String
  model : Option ModelRef
  agent : Option String
deriving DecidableEq

/-- Embedding of `MessagePart` (plugin.ts lines 21-29); the `synthetic`
field is read through a cast (`(part as any).synthetic === true`), so it is
an optional Bool here. -/
structure MessagePart where
  id : String
  type : String
  text : Option String
  mime : Option String
  filename : Option String
  url : Option String
  name : Option String
  synthetic : Option Bool
deriving DecidableEq

/-- Embedding of `MessageWithParts` (plugin.ts lines 31-34). -/
structure MessageWithParts where
  info : MessageInfo
  parts : List MessagePart
deriving DecidableEq

/-- The session state store (`sessionStates : Map<string, SessionState>`,
plugin.ts line 36), as a total lookup function. -/
def Store : Type := String → Option SessionState

/-- `Map.get`. -/
def Store.get (s : Store) (sessionID : String) : Option SessionState := s sessionID

/-- `Map.set`. -/
def Store.set (s : Store) (sessionID : String) (v : SessionState) : Store :=
  fun k => if k = sessionID then some v else s k

/-- `Map.delete`. -/
def Store.delete (s : Store) (sessionID : String) : Store :=
  fun k => if k = sessionID then none else s k

/-- The store at process start: no entries. -/
def emptyStore : Store := fun _ => none

/-- JavaScript `String.prototype.toLowerCase`, embedded as character-wise
case folding over the string's characters. -/
def jsToLower (s : String) : String := String.mk (s.toList.map Char.toLower)

/-- JavaScript `String.prototype.includes`: `sub` occurs contiguously in `s`. -/
def jsIncludes (s sub : String) : Bool := decide (sub.toList <:+: s.toList)

/-- Embedding of `createPatternMatcher` (plugin.ts lines 38-43): lower-case the
message once and test whether some configured pattern, lower-cased, occurs in it. -/
def createPatternMatcher (patterns : List String) (message : String) : Bool :=
  let lower := jsToLower message
  patterns.any fun pattern => jsIncludes lower (jsToLower pattern)

/-- A converted prompt part, the result type of `convertToPromptPart`
(plugin.ts line 192). -/
inductive PromptPart where
  | text (text : String)
  | file (mime : String) (filename : Option String) (url : String)
  | agent (name : String)
deriving DecidableEq

/-- Embedding of `convertToPromptPart` (plugin.ts lines 192-212). The
JavaScript truthiness tests `if (part.text)`, `part.url && part.mime` and
`if (part.name)` hold exactly when the optional string is present and
non-empty, which the explicit `== ""` tests mirror. -/
def convertToPromptPart (part : MessagePart) : Option PromptPart :=
  if part.type == "text" then
    match part.text with
    | some t => if t == "" then none else some (PromptPart.text t)
    | none => none
  else if part.type == "file" then
    match part.url, part.mime with
    | some u, some m =>
        if u == "" || m == "" then none
        else some (PromptPart.file m part.filename u)
    | _, _ => none
  else if part.type == "agent" then
    match part.name with
    | some n => if n == "" then none else some (PromptPart.agent n)
    | none => none
  else none

/-- Embedding of `isSyntheticPart` (plugin.ts lines 188-190):
`(part as any).synthetic === true`. -/
def isSyntheticPart (part : MessagePart) : Bool := part.synthetic == some true

/-- Embedding of the reconstruction pipeline applied to the located user
message's parts (plugin.ts lines 135-138): drop synthetic parts, convert the
rest, keep the non-null conversions. -/
def reconstructParts (parts : List MessagePart) : List PromptPart :=
  (parts.filter fun p => !isSyntheticPart p).filterMap convertToPromptPart

/-- Host oracle: the outcome of each host call the fallback sequence may
perform. `fetchData` is the `data` field of the messages response (possibly
`undefined`); a `false` `abortOk`/`fetchOk`/`revertOk` means that call throws
(the handler catches the error and stops the sequence). The outcome of the
final `prompt` call does not influence the trace, so it is not recorded. -/
structure Host where
  abortOk : Bool
  fetchOk : Bool
  fetchData : Option (List MessageWithParts)
  revertOk : Bool

/-- One host call performed by the fallback sequence (plugin.ts lines
101, 104, 128-131, 145-152). -/
inductive HostCall where
  | abort (sessionID : String)
  | fetchMessages (sessionID : String)
  | revert (sessionID : String) (messageID : String)
  | prompt (sessionID : String) (model : String) (agent : Option String)
      (parts : List PromptPart)
deriving DecidableEq

/-- Embedding of plugin.ts line 112: scan the history in reverse for the most
recent message with role `user`. -/
def findLastUserMessage (messages : List MessageWithParts) : Option MessageWithParts :=
  messages.reverse.find? fun m => m.info.role == "user"

/-- Embedding of plugin.ts lines 118-119: locate the last user message by its
identifier (`findIndex` on the forward history) and pick the immediately
preceding message, when the found index is positive, as the revert target.
JavaScript `findIndex` returning `-1` corresponds to the `none` branch. -/
def findRevertTarget (messages : List MessageWithParts)
    (lastUserMessage : MessageWithParts) : Option MessageWithParts :=
  match messages.findIdx? (fun m => m.info.id == lastUserMessage.info.id) with
  | some lastUserIndex =>
      if lastUserIndex > 0 then messages[lastUserIndex - 1]? else none
  | none => none

/-- The tail of the fallback sequence after the revert decision (plugin.ts
lines 135-152): reconstruct the parts; if none survive, stop with an error,
otherwise submit the prompt with the fallback model and the located message's
agent. -/
def promptCalls (fallbackModel sessionID : String)
    (lastUserMessage : MessageWithParts) : List HostCall :=
  let originalParts := reconstructParts lastUserMessage.parts
  if originalParts.isEmpty then []
  else [HostCall.prompt sessionID fallbackModel lastUserMessage.info.agent originalParts]

/-- The fallback sequence from the located user message on (plugin.ts lines
118-152): revert when a target exists (stopping if the revert call throws),
then reconstruct and submit. -/
def fallbackFromUserMessage (host : Host) (fallbackModel sessionID : String)
    (messages : List MessageWithParts)
    (lastUserMessage : MessageWithParts) : List HostCall :=
  match findRevertTarget messages lastUserMessage with
  | some revertToMessage =>
      HostCall.revert sessionID revertToMessage.info.id ::
        (if host.revertOk then promptCalls fallbackModel sessionID lastUserMessage else [])
  | none => promptCalls fallbackModel sessionID lastUserMessage

/-- The full fallback sequence (plugin.ts lines 100-163), as the trace of host
calls it performs: abort, fetch the history, stop on a missing or empty
history or a missing user message, else continue from the located message.
A thrown host call is the last call of the trace (the `catch` stops the
sequence). -/
def runFallbackSequence (host : Host) (fallbackModel sessionID : String) : List HostCall :=
  HostCall.abort sessionID ::
    if !host.abortOk then []
    else HostCall.fetchMessages sessionID ::
      if !host.fetchOk then []
      else match host.fetchData with
        | none => []
        | some messages =>
          if messages.isEmpty then []
          else match findLastUserMessage messages with
            | none => []
            | some lastUserMessage =>
                fallbackFromUserMessage host fallbackModel sessionID messages lastUserMessage

/-- Status tag of a `session.status` event (plugin.ts line 69). -/
inductive StatusType where
  | idle
  | retry
  | busy
deriving DecidableEq

/-- Properties of a `session.status` event (plugin.ts lines 66-74). -/
structure StatusProps where
  sessionID : String
  type : StatusType
  attempt : Option Nat
  message : Option String
  next : Option Nat
deriving DecidableEq

/-- The `info` object of a `session.deleted` event (plugin.ts line 178). -/
structure DeletedInfo where
  id : Option String
deriving DecidableEq

/-- Properties of a `session.deleted` event (plugin.ts line 178). -/
structure DeletedProps where
  info : Option DeletedInfo
deriving DecidableEq

/-- A lifecycle event: `session.status`, `session.deleted`, or any other
event type (ignored by the handler). -/
inductive Event where
  | status (props : StatusProps)
  | deleted (props : DeletedProps)
  | other

/-- The configuration values the event handler reads (resolved before the
handler is installed; `fallbackModel` is kept as the configured identity). -/
structure PluginConfig where
  patterns : List String
  cooldownMs : Nat
  fallbackModel : String

/-- Result of processing one event: the updated store and the trace of host
calls performed. -/
structure EventResult where
  store : Store
  calls : List HostCall

/-- The cooldown gate (plugin.ts line 81):
`existingState?.fallbackActive && Date.now() < existingState.cooldownEndTime`. -/
def cooldownActive (store : Store) (sessionID : String) (now : Nat) : Bool :=
  match store.get sessionID with
  | some st => st.fallbackActive && decide (now < st.cooldownEndTime)
  | none => false

/-- The retry branch of the handler (plugin.ts lines 76-164). The guard
`props.status.type === "retry" && props.status.message` requires a present,
non-empty message (JavaScript truthiness); then a matching message either
hits the cooldown gate (no-op) or records the new session state *before*
running the fallback sequence. -/
def handleStatusRetry (cfg : PluginConfig) (host : Host) (now : Nat) (store : Store)
    (props : StatusProps) : EventResult :=
  match props.message with
  | none => ⟨store, []⟩
  | some msg =>
    if msg == "" then ⟨store, []⟩
    else if createPatternMatcher cfg.patterns msg then
      if cooldownActive store props.sessionID now then ⟨store, []⟩
      else ⟨store.set props.sessionID ⟨true, now + cfg.cooldownMs⟩,
            runFallbackSequence host cfg.fallbackModel props.sessionID⟩
    else ⟨store, []⟩

/-- The idle branch of the handler (plugin.ts lines 167-174): when an entry
exists with `fallbackActive` set and the cooldown deadline has passed, the
entry's `fallbackActive` field is cleared in place (its `cooldownEndTime` is
untouched); otherwise nothing changes. -/
def handleStatusIdle (now : Nat) (store : Store) (props : StatusProps) : EventResult :=
  match store.get props.sessionID with
  | some st =>
    if st.fallbackActive && decide (st.cooldownEndTime ≤ now) then
      ⟨store.set props.sessionID ⟨false, st.cooldownEndTime⟩, []⟩
    else ⟨store, []⟩
  | none => ⟨store, []⟩

/-- The deleted branch of the handler (plugin.ts lines 177-183): the entry is
removed only when `props.info?.id` is truthy, i.e. the `info` object and its
`id` are present and the `id` is non-empty. -/
def handleDeleted (store : Store) (props : DeletedProps) : EventResult :=
  match props.info with
  | some info =>
    match info.id with
    | some id => if id == "" then ⟨store, []⟩ else ⟨store.delete id, []⟩
    | none => ⟨store, []⟩
  | none => ⟨store, []⟩

/-- The event handler (plugin.ts lines 64-184). A `session.status` event is
dispatched on its status tag (`retry` and `idle` are the only acted-on tags,
and they are mutually exclusive, so the two sequential `if`s of the source
collapse to this dispatch); a `session.deleted` event goes to the deleted
branch; anything else is ignored. -/
def handleEvent (cfg : PluginConfig) (host : Host) (now : Nat) (store : Store) :
    Event → EventResult
  | Event.status props =>
    match props.type with
    | StatusType.retry => handleStatusRetry cfg host now store props
    | StatusType.idle => handleStatusIdle now store props
    | StatusType.busy => ⟨store, []⟩
  | Event.deleted props => handleDeleted store props
  | Event.other => ⟨store, []⟩

/-- A host on which every call succeeds and the fetched history is absent. -/
def hostOk : Host := ⟨true, true, none, true⟩

/-- A host on which every call succeeds and fetching returns `messages`. -/
def hostFetch (messages : List MessageWithParts) : Host := ⟨true, true, some messages, true⟩

/-- Specification-side conversion of one message part, following the words of
the reconstruction contract (with the truthiness amendment): a part flagged
synthetic is dropped; a text part with non-empty text yields a text part; a
file part with both URL and MIME present and non-empty yields a file part
carrying MIME, optional filename and URL; an agent part with a non-empty name
present yields an agent reference part; every other part (text with empty or
missing text, file with missing or empty URL or MIME, agent with missing or
empty name, unknown types) is dropped. -/
def specPart (part : MessagePart) : Option PromptPart :=
  if part.synthetic == some true then none
  else if part.type == "text" then
    match part.text with
    | some t => if t == "" then none else some (PromptPart.text t)
    | none => none
  else if part.type == "file" then
    match part.url, part.mime with
    | some u, some m =>
        if u == "" || m == "" then none
        else some (PromptPart.file m part.filename u)
    | _, _ => none
  else if part.type == "agent" then
    match part.name with
    | some n => if n == "" then none else some (PromptPart.agent n)
    | none => none
  else none

/-- A genuine (non-synthetic) text part. -/
def plainTextPart (t : String) : MessagePart := ⟨"p0", "text", some t, none, none, none, none, none⟩

/-- A synthetic text part. -/
def syntheticTextPart (t : String) : MessagePart :=
  ⟨"p3", "text", some t, none, none, none, none, some true⟩

/-- A file part whose URL is present but empty and whose MIME type is present. -/
def fileEmptyUrlPart : MessagePart := ⟨"p1", "file", none, some "text/plain", none, some "", none, none⟩

/-- An agent part whose name is present but empty. -/
def agentEmptyNamePart : MessagePart := ⟨"p2", "agent", none, none, none, none, some "", none⟩

/-- A message with the given identifier, role and agent assignment, carrying
one genuine text part. -/
def mkMessage (id role : String) (agent : Option String) : MessageWithParts :=
  ⟨⟨id, role, "s1", none, agent⟩, [plainTextPart "fix bug"]⟩

/-- A history in which two distinct messages share the identifier `a`: the
most recent user message sits at index 2, but `findIndex` locates identifier
`a` at index 0. -/
def dupMsgs : List MessageWithParts :=
  [mkMessage "a" "user" none, mkMessage "b" "assistant" none, mkMessage "a" "user" (some "coder")]

/-- A two-message history with distinct identifiers whose only user message
is the first message. -/
def c8Msgs : List MessageWithParts :=
  [mkMessage "m1" "user" none, mkMessage "m2" "assistant" none]

/-! ## General lemmas about the handler -/

/-- A retry status event is a complete no-op whenever the cooldown gate is
closed, whatever the message: the gate is only consulted after the message
passed the truthiness and pattern tests, and every earlier exit also leaves
the store untouched and performs no host call. -/
theorem retry_noop_of_cooldownActive (cfg : PluginConfig) (host : Host) (now : Nat)
    (store : Store) (props : StatusProps)
    (htype : props.type = StatusType.retry)
    (hgate : cooldownActive store props.sessionID now = true) :
    handleEvent cfg host now store (Event.status props) = ⟨store, []⟩ := by
  simp only [handleEvent, htype, handleStatusRetry]
  cases hmsg : props.message with
  | none => rfl
  | some m =>
    by_cases hm0 : m = ""
    · simp [hm0]
    · have hbeq : (m == "") = false := by simp [hm0]
      cases hmatch : createPatternMatcher cfg.patterns m with
      | false => simp [hbeq, hmatch]
      | true => simp [hbeq, hmatch, hgate]

/-- A retry status event with a present, non-empty, matching message and an
open cooldown gate records the new session state and runs the fallback
sequence. -/
theorem retry_trigger (cfg : PluginConfig) (host : Host) (now : Nat)
    (store : Store) (props : StatusProps) (m : String)
    (htype : props.type = StatusType.retry)
    (hmsg : props.message = some m) (hne : m ≠ "")
    (hmatch : createPatternMatcher cfg.patterns m = true)
    (hgate : cooldownActive store props.sessionID now = false) :
    handleEvent cfg host now store (Event.status props)
      = ⟨store.set props.sessionID ⟨true, now + cfg.cooldownMs⟩,
         runFallbackSequence host cfg.fallbackModel props.sessionID⟩ := by
  have hbeq : (m == "") = false := by simp [hne]
  simp [handleEvent, htype, handleStatusRetry, hmsg, hbeq, hmatch, hgate]

/-- Reading a key just written. -/
theorem Store.get_set_same (s : Store) (sessionID : String) (v : SessionState) :
    (s.set sessionID v).get sessionID = some v := by
  simp [Store.get, Store.set]

/-- Reading another key after a write. -/
theorem Store.get_set_other (s : Store) (sessionID k : String) (v : SessionState)
    (h : k ≠ sessionID) : (s.set sessionID v).get k = s.get k := by
  simp [Store.get, Store.set, h]

/-- Reading a key just deleted. -/
theorem Store.get_delete_same (s : Store) (sessionID : String) :
    (s.delete sessionID).get sessionID = none := by
  simp [Store.get, Store.delete]

/-! ## Claims -/

/-- C5: for every session, processing a status event with tag retry whose
message is absent, or whose message matches no configured pattern, leaves the
session state store entirely unchanged (no entry created, mutated, or removed,
for this session or any other). -/
theorem nonmatching_retry_leaves_store (cfg : PluginConfig) (host : Host) (now : Nat)
    (store : Store) (props : StatusProps)
    (htype : props.type = StatusType.retry)
    (hmsg : props.message = none ∨
      ∃ m, props.message = some m ∧ createPatternMatcher cfg.patterns m = false) :
    (handleEvent cfg host now store (Event.status props)).store = store := by
  simp only [handleEvent, htype, handleStatusRetry]
  rcases hmsg with h | ⟨m, hm, hmatch⟩
  · simp [h]
  · by_cases hm0 : m = ""
    · simp [hm, hm0]
    · have hbeq : (m == "") = false := by simp [hm0]
      simp [hm, hbeq, hmatch]

/-- Witness for `nonmatching_retry_leaves_store` at a concrete non-matching
message. -/
theorem nonmatching_retry_leaves_store_witness :
    (handleEvent ⟨["rate limit"], 1000, "m"⟩ hostOk 5 emptyStore
        (Event.status ⟨"s1", StatusType.retry, none, some "all good", none⟩)).store
      = emptyStore :=
  nonmatching_retry_leaves_store ⟨["rate limit"], 1000, "m"⟩ hostOk 5 emptyStore
    ⟨"s1", StatusType.retry, none, some "all good", none⟩ rfl
    (Or.inr ⟨"all good", rfl, by decide⟩)

/-- C9: processing a deleted event whose properties carry no session
identifier (info absent or info.id absent) leaves the session state store
entirely unchanged: no entry is removed for any session. -/
theorem deleted_without_id_noop (cfg : PluginConfig) (host : Host) (now : Nat)
    (store : Store) (props : DeletedProps)
    (h : props.info = none ∨ ∃ i, props.info = some i ∧ i.id = none) :
    (handleEvent cfg host now store (Event.deleted props)).store = store := by
  simp only [handleEvent, handleDeleted]
  rcases h with h | ⟨i, hi, hid⟩
  · simp [h]
  · simp [hi, hid]

/-- Witness for `deleted_without_id_noop` at a concrete event with an `info`
object that has no `id`. -/
theorem deleted_without_id_noop_witness :
    (handleEvent ⟨[], 0, "m"⟩ hostOk 0 (Store.set emptyStore "s1" ⟨true, 5⟩)
        (Event.deleted ⟨some ⟨none⟩⟩)).store
      = Store.set emptyStore "s1" ⟨true, 5⟩ :=
  deleted_without_id_noop ⟨[], 0, "m"⟩ hostOk 0 (Store.set emptyStore "s1" ⟨true, 5⟩)
    ⟨some ⟨none⟩⟩ (Or.inr ⟨⟨none⟩, rfl, rfl⟩)

/-- C4, counterexample: a deleted event whose identifier is the empty string
does **not** remove the entry stored under the empty-string key, because the
handler's `props.info?.id` truthiness test treats `""` as absent. The store
can hold such an entry, since the retry branch applies no truthiness test to
`props.sessionID`. The claim as stated demands that the entry be gone. -/
theorem deleted_empty_id_keeps_entry :
    (handleEvent ⟨["rate limit"], 1000, "m"⟩ hostOk 7 emptyStore
        (Event.status ⟨"", StatusType.retry, none, some "rate limit", none⟩)).store.get ""
      = some ⟨true, 1007⟩ ∧
    ((handleEvent ⟨[], 0, "m"⟩ hostOk 0 (Store.set emptyStore "" ⟨true, 1007⟩)
        (Event.deleted ⟨some ⟨some ""⟩⟩)).store).get ""
      = some ⟨true, 1007⟩ := by decide

/-- C4 as amended: for every session whose identifier is non-empty and every
prior state, processing a deleted event for that session's identifier removes
the session's entry from the store unconditionally, so the store afterwards
contains no entry for that identifier. -/
theorem deleted_removes_entry (cfg : PluginConfig) (host : Host) (now : Nat)
    (store : Store) (props : DeletedProps) (i : DeletedInfo) (sessionID : String)
    (hinfo : props.info = some i) (hid : i.id = some sessionID) (hne : sessionID ≠ "") :
    (handleEvent cfg host now store (Event.deleted props)).store = store.delete sessionID ∧
    ((handleEvent cfg host now store (Event.deleted props)).store).get sessionID = none := by
  have hbeq : (sessionID == "") = false := by simp [hne]
  have hmain : (handleEvent cfg host now store (Event.deleted props)).store
      = store.delete sessionID := by
    simp [handleEvent, handleDeleted, hinfo, hid, hbeq]
  exact ⟨hmain, by rw [hmain]; exact Store.get_delete_same store sessionID⟩

/-- Witness for `deleted_removes_entry`: deleting session `s1` while it is
mid-cooldown removes its entry. -/
theorem deleted_removes_entry_witness :
    (handleEvent ⟨[], 0, "m"⟩ hostOk 0 (Store.set emptyStore "s1" ⟨true, 99⟩)
        (Event.deleted ⟨some ⟨some "s1"⟩⟩)).store
      = Store.delete (Store.set emptyStore "s1" ⟨true, 99⟩) "s1" ∧
    ((handleEvent ⟨[], 0, "m"⟩ hostOk 0 (Store.set emptyStore "s1" ⟨true, 99⟩)
        (Event.deleted ⟨some ⟨some "s1"⟩⟩)).store).get "s1" = none :=
  deleted_removes_entry ⟨[], 0, "m"⟩ hostOk 0 (Store.set emptyStore "s1" ⟨true, 99⟩)
    ⟨some ⟨some "s1"⟩⟩ ⟨some "s1"⟩ "s1" rfl rfl (by decide)

/-- C3: for every session, an idle status event clears `fallbackActive` if
and only if the session has a store entry with `fallbackActive` true and the
current time is at or after `cooldownEndTime`; an idle event strictly before
`cooldownEndTime` leaves the entry unchanged, and an idle event for a session
with no entry or with `fallbackActive` already false changes nothing. -/
theorem idle_clears_iff_expired (cfg : PluginConfig) (host : Host) (now : Nat)
    (store : Store) (props : StatusProps)
    (htype : props.type = StatusType.idle) :
    (∀ st : SessionState, store.get props.sessionID = some st →
        st.fallbackActive = true → st.cooldownEndTime ≤ now →
        (handleEvent cfg host now store (Event.status props)).store
          = store.set props.sessionID ⟨false, st.cooldownEndTime⟩) ∧
    (∀ st : SessionState, store.get props.sessionID = some st →
        st.fallbackActive = true → now < st.cooldownEndTime →
        handleEvent cfg host now store (Event.status props) = ⟨store, []⟩) ∧
    (store.get props.sessionID = none →
        handleEvent cfg host now store (Event.status props) = ⟨store, []⟩) ∧
    (∀ st : SessionState, store.get props.sessionID = some st →
        st.fallbackActive = false →
        handleEvent cfg host now store (Event.status props) = ⟨store, []⟩) := by
  refine ⟨?_, ?_, ?_, ?_⟩
  · intro st hget hact hle
    simp [handleEvent, htype, handleStatusIdle, hget, hact, hle]
  · intro st hget hact hlt
    simp [handleEvent, htype, handleStatusIdle, hget, hact, Nat.not_le.mpr hlt]
  · intro hget
    simp [handleEvent, htype, handleStatusIdle, hget]
  · intro st hget hact
    simp [handleEvent, htype, handleStatusIdle, hget, hact]

/-- Witness for `idle_clears_iff_expired`: an idle event at time 10 clears a
flag whose cooldown ended at 5, and an idle event at time 3 leaves it alone. -/
theorem idle_clears_iff_expired_witness :
    ((handleEvent ⟨[], 0, "m"⟩ hostOk 10 (Store.set emptyStore "s1" ⟨true, 5⟩)
        (Event.status ⟨"s1", StatusType.idle, none, none, none⟩)).store
      = Store.set (Store.set emptyStore "s1" ⟨true, 5⟩) "s1" ⟨false, 5⟩) ∧
    (handleEvent ⟨[], 0, "m"⟩ hostOk 3 (Store.set emptyStore "s1" ⟨true, 5⟩)
        (Event.status ⟨"s1", StatusType.idle, none, none, none⟩)
      = ⟨Store.set emptyStore "s1" ⟨true, 5⟩, []⟩) :=
  ⟨(idle_clears_iff_expired ⟨[], 0, "m"⟩ hostOk 10 (Store.set emptyStore "s1" ⟨true, 5⟩)
      ⟨"s1", StatusType.idle, none, none, none⟩ rfl).1 ⟨true, 5⟩ rfl rfl (by decide),
   (idle_clears_iff_expired ⟨[], 0, "m"⟩ hostOk 3 (Store.set emptyStore "s1" ⟨true, 5⟩)
      ⟨"s1", StatusType.idle, none, none, none⟩ rfl).2.1 ⟨true, 5⟩ rfl rfl (by decide)⟩

/-- C10: when an idle event clears a session's `fallbackActive` flag, only
that one field of that one session's entry is mutated: the entry's
`cooldownEndTime` is unchanged, the entry itself remains present in the
store, and every other session's entry is unchanged. -/
theorem idle_clear_frame (cfg : PluginConfig) (host : Host) (now : Nat)
    (store : Store) (props : StatusProps) (st : SessionState)
    (htype : props.type = StatusType.idle)
    (hget : store.get props.sessionID = some st)
    (hact : st.fallbackActive = true)
    (hexp : st.cooldownEndTime ≤ now) :
    ((handleEvent cfg host now store (Event.status props)).store).get props.sessionID
        = some ⟨false, st.cooldownEndTime⟩ ∧
    (∀ other, other ≠ props.sessionID →
        ((handleEvent cfg host now store (Event.status props)).store).get other
          = store.get other) := by
  have hmain : (handleEvent cfg host now store (Event.status props)).store
      = store.set props.sessionID ⟨false, st.cooldownEndTime⟩ := by
    simp [handleEvent, htype, handleStatusIdle, hget, hact, hexp]
  rw [hmain]
  exact ⟨Store.get_set_same store props.sessionID ⟨false, st.cooldownEndTime⟩,
    fun other h => Store.get_set_other store props.sessionID other ⟨false, st.cooldownEndTime⟩ h⟩

/-- Witness for `idle_clear_frame`: clearing `s1` keeps the entry (with its
old deadline) and leaves `s2` untouched. -/
theorem idle_clear_frame_witness :
    (((handleEvent ⟨[], 0, "m"⟩ hostOk 10 (Store.set emptyStore "s1" ⟨true, 5⟩)
        (Event.status ⟨"s1", StatusType.idle, none, none, none⟩)).store).get "s1"
      = some ⟨false, 5⟩) ∧
    (∀ other, other ≠ "s1" →
      ((handleEvent ⟨[], 0, "m"⟩ hostOk 10 (Store.set emptyStore "s1" ⟨true, 5⟩)
        (Event.status ⟨"s1", StatusType.idle, none, none, none⟩)).store).get other
        = (Store.set emptyStore "s1" ⟨true, 5⟩).get other) :=
  idle_clear_frame ⟨[], 0, "m"⟩ hostOk 10 (Store.set emptyStore "s1" ⟨true, 5⟩)
    ⟨"s1", StatusType.idle, none, none, none⟩ ⟨true, 5⟩ rfl rfl rfl (by decide)

/-- C1: for every session whose store entry has `fallbackActive` true and
whose `cooldownEndTime` is still in the future, processing a retry status
event whose message matches a configured pattern is a no-op — the store is
unchanged and no host call (abort, fetch, revert, or submit) is executed; and
two qualifying retry events within one cooldown window produce at most one
fallback sequence execution, the second being a no-op. -/
theorem retry_during_cooldown_noop :
    (∀ (cfg : PluginConfig) (host : Host) (now : Nat) (store : Store)
        (props : StatusProps) (m : String) (st : SessionState),
      props.type = StatusType.retry → props.message = some m →
      createPatternMatcher cfg.patterns m = true →
      store.get props.sessionID = some st → st.fallbackActive = true →
      now < st.cooldownEndTime →
      handleEvent cfg host now store (Event.status props) = ⟨store, []⟩) ∧
    (∀ (cfg : PluginConfig) (host₁ host₂ : Host) (now₁ now₂ : Nat) (store : Store)
        (props₁ props₂ : StatusProps) (m₁ m₂ : String),
      props₁.type = StatusType.retry → props₁.message = some m₁ → m₁ ≠ "" →
      createPatternMatcher cfg.patterns m₁ = true →
      cooldownActive store props₁.sessionID now₁ = false →
      props₂.type = StatusType.retry → props₂.sessionID = props₁.sessionID →
      props₂.message = some m₂ → createPatternMatcher cfg.patterns m₂ = true →
      now₂ < now₁ + cfg.cooldownMs →
      handleEvent cfg host₂ now₂
          ((handleEvent cfg host₁ now₁ store (Event.status props₁)).store)
          (Event.status props₂)
        = ⟨(handleEvent cfg host₁ now₁ store (Event.status props₁)).store, []⟩) := by
  constructor
  · intro cfg host now store props m st htype hmsg hmatch hget hact hlt
    apply retry_noop_of_cooldownActive cfg host now store props htype
    simp [cooldownActive, hget, hact, hlt]
  · intro cfg host₁ host₂ now₁ now₂ store props₁ props₂ m₁ m₂ htype₁ hmsg₁ hne₁
      hmatch₁ hgate₁ htype₂ hsid₂ hmsg₂ hmatch₂ hwin
    have h₁ := retry_trigger cfg host₁ now₁ store props₁ m₁ htype₁ hmsg₁ hne₁ hmatch₁ hgate₁
    rw [h₁]
    apply retry_noop_of_cooldownActive cfg host₂ now₂ _ props₂ htype₂
    simp [cooldownActive, hsid₂, Store.get_set_same, hwin]

/-- Witness for `retry_during_cooldown_noop`: a matching retry for `s1` at
time 5, mid-cooldown (deadline 10), is a no-op; and after a trigger at time 0
with `cooldownMs = 1000`, a second matching retry at time 5 is a no-op. -/
theorem retry_during_cooldown_noop_witness :
    (handleEvent ⟨["rate limit"], 1000, "m"⟩ hostOk 5 (Store.set emptyStore "s1" ⟨true, 10⟩)
        (Event.status ⟨"s1", StatusType.retry, none, some "rate limit hit", none⟩)
      = ⟨Store.set emptyStore "s1" ⟨true, 10⟩, []⟩) ∧
    (handleEvent ⟨["rate limit"], 1000, "m"⟩ hostOk 5
        ((handleEvent ⟨["rate limit"], 1000, "m"⟩ hostOk 0 emptyStore
          (Event.status ⟨"s1", StatusType.retry, none, some "rate limit hit", none⟩)).store)
        (Event.status ⟨"s1", StatusType.retry, none, some "rate limit again", none⟩)
      = ⟨(handleEvent ⟨["rate limit"], 1000, "m"⟩ hostOk 0 emptyStore
          (Event.status ⟨"s1", StatusType.retry, none, some "rate limit hit", none⟩)).store,
         []⟩) :=
  ⟨retry_during_cooldown_noop.1 ⟨["rate limit"], 1000, "m"⟩ hostOk 5
      (Store.set emptyStore "s1" ⟨true, 10⟩)
      ⟨"s1", StatusType.retry, none, some "rate limit hit", none⟩ "rate limit hit" ⟨true, 10⟩
      rfl rfl (by decide) rfl rfl (by decide),
   retry_during_cooldown_noop.2 ⟨["rate limit"], 1000, "m"⟩ hostOk hostOk 0 5 emptyStore
      ⟨"s1", StatusType.retry, none, some "rate limit hit", none⟩
      ⟨"s1", StatusType.retry, none, some "rate limit again", none⟩
      "rate limit hit" "rate limit again"
      rfl rfl (by decide) (by decide) (by decide) rfl rfl rfl (by decide) (by decide)⟩

/-- C2, counterexample: with the configured pattern list `[""]` and the retry
message `""`, the message is present and matches (`"".includes("")` is true in
JavaScript, as is `[""].some(...)`), and the session is in `Normal` state, yet
no store entry is written: the guard `props.status.type === "retry" &&
props.status.message` treats the empty message as absent. The claim as stated
demands the entry `{fallbackActive: true, cooldownEndTime: 0 + 1000}`. -/
theorem retry_empty_message_not_written :
    createPatternMatcher [""] "" = true ∧
    emptyStore.get "s1" = none ∧
    (handleEvent ⟨[""], 1000, "m"⟩ hostOk 0 emptyStore
        (Event.status ⟨"s1", StatusType.retry, none, some "", none⟩)).store.get "s1"
      = none := by decide

/-- C2 as amended: for every session in state `Normal` (no entry, or entry
with `fallbackActive` false) or `CooldownExpired` (`fallbackActive` true and
now ≥ `cooldownEndTime`), processing a retry status event whose message is
present, **non-empty**, and matches a configured pattern writes the store
entry `{fallbackActive: true, cooldownEndTime: now + cooldownMs}`; the write
is recorded whatever the host does afterwards (the host oracle is universally
quantified, covering every failing or data-missing fallback sequence), since
it happens before any host call of the sequence. -/
theorem retry_trigger_writes_state (cfg : PluginConfig) (host : Host) (now : Nat)
    (store : Store) (props : StatusProps) (m : String)
    (htype : props.type = StatusType.retry)
    (hmsg : props.message = some m) (hne : m ≠ "")
    (hmatch : createPatternMatcher cfg.patterns m = true)
    (hstate : store.get props.sessionID = none ∨
      ∃ st : SessionState, store.get props.sessionID = some st ∧
        (st.fallbackActive = false ∨ st.cooldownEndTime ≤ now)) :
    (handleEvent cfg host now store (Event.status props)).store
        = store.set props.sessionID ⟨true, now + cfg.cooldownMs⟩ ∧
    ((handleEvent cfg host now store (Event.status props)).store).get props.sessionID
        = some ⟨true, now + cfg.cooldownMs⟩ := by
  have hgate : cooldownActive store props.sessionID now = false := by
    rcases hstate with h | ⟨st, hget, h2 | h2⟩
    · simp [cooldownActive, h]
    · simp [cooldownActive, hget, h2]
    · simp [cooldownActive, hget, Nat.not_lt.mpr h2]
  have hmain := retry_trigger cfg host now store props m htype hmsg hne hmatch hgate
  rw [hmain]
  exact ⟨rfl, Store.get_set_same store props.sessionID ⟨true, now + cfg.cooldownMs⟩⟩

/-- Witness for `retry_trigger_writes_state`, matching the spec scenario:
patterns `["rate limit"]`, `cooldownMs = 1000`, message
`"Error: rate limit exceeded"` for `s1` in `Normal` state — even on a host
whose fetch returns no data. -/
theorem retry_trigger_writes_state_witness :
    (handleEvent ⟨["rate limit"], 1000, "m"⟩ hostOk 0 emptyStore
        (Event.status ⟨"s1", StatusType.retry, none, some "Error: rate limit exceeded", none⟩)).store
      = Store.set emptyStore "s1" ⟨true, 1000⟩ ∧
    ((handleEvent ⟨["rate limit"], 1000, "m"⟩ hostOk 0 emptyStore
        (Event.status ⟨"s1", StatusType.retry, none, some "Error: rate limit exceeded", none⟩)).store).get "s1"
      = some ⟨true, 1000⟩ :=
  retry_trigger_writes_state ⟨["rate limit"], 1000, "m"⟩ hostOk 0 emptyStore
    ⟨"s1", StatusType.retry, none, some "Error: rate limit exceeded", none⟩
    "Error: rate limit exceeded" rfl rfl (by decide) (by decide) (Or.inl rfl)

/-- C6: the pattern matcher is a pure function of the configured pattern list
and the input text; it returns true exactly when some configured phrase,
case-folded, occurs contiguously in the case-folded text. -/
theorem patternMatcher_iff_substring (patterns : List String) (text : String) :
    createPatternMatcher patterns text = true ↔
      ∃ pattern, pattern ∈ patterns ∧
        (jsToLower pattern).toList <:+: (jsToLower text).toList := by
  simp [createPatternMatcher, jsIncludes]

/-- Witness for `patternMatcher_iff_substring` at a concrete matching pair. -/
theorem patternMatcher_iff_substring_witness :
    createPatternMatcher ["rate limit"] "Error: RATE LIMIT exceeded" = true :=
  (patternMatcher_iff_substring ["rate limit"] "Error: RATE LIMIT exceeded").mpr
    ⟨"rate limit", by decide⟩

/-- The specification-side converter agrees pointwise with the synthetic
filter followed by `convertToPromptPart`. -/
theorem specPart_eq (p : MessagePart) :
    specPart p = if isSyntheticPart p then none else convertToPromptPart p := rfl

/-- C7, counterexample: a file part whose URL is present but empty, and an
agent part whose name is present but empty, are both dropped (the JavaScript
truthiness tests `part.url && part.mime` and `if (part.name)` reject the
empty string), while the claim as stated says they yield a file part and an
agent reference part respectively. -/
theorem reconstruct_truthiness_counterexample :
    reconstructParts [fileEmptyUrlPart] = [] ∧
    reconstructParts [fileEmptyUrlPart] ≠ [PromptPart.file "text/plain" none ""] ∧
    reconstructParts [agentEmptyNamePart] = [] ∧
    reconstructParts [agentEmptyNamePart] ≠ [PromptPart.agent ""] := by decide

/-- C7 as amended: reconstruction excludes every part flagged synthetic and
converts the remaining parts by type — a text part with non-empty text yields
a text part, a file part with URL and MIME both present and non-empty yields
a file part carrying MIME, optional filename and URL, an agent part with a
non-empty name yields an agent reference part, and every other part is
dropped — surviving parts preserving their source order (`filterMap`
preserves order) and no error raised for drops (the function is total). -/
theorem reconstruct_eq_spec (parts : List MessagePart) :
    reconstructParts parts = parts.filterMap specPart := by
  induction parts with
  | nil => rfl
  | cons p ps ih =>
    rw [List.filterMap_cons, specPart_eq]
    by_cases hs : isSyntheticPart p
    · simp only [reconstructParts, List.filter_cons] at ih ⊢
      simp [hs, ih]
    · simp only [reconstructParts, List.filter_cons] at ih ⊢
      simp only [hs, Bool.not_false, if_pos, List.filterMap_cons, if_neg, ih]
      cases convertToPromptPart p <;> simp [ih]

/-- Witness for `reconstruct_eq_spec` on the spec's sample list: one
synthetic text part and one genuine text part. -/
theorem reconstruct_eq_spec_witness :
    reconstructParts [syntheticTextPart "injected", plainTextPart "fix bug"]
      = [syntheticTextPart "injected", plainTextPart "fix bug"].filterMap specPart :=
  reconstruct_eq_spec [syntheticTextPart "injected", plainTextPart "fix bug"]

/-- The reverse scan finds no user message exactly when the history holds
none. -/
theorem findLastUserMessage_none_iff (msgs : List MessageWithParts) :
    findLastUserMessage msgs = none ↔ ∀ x ∈ msgs, x.info.role ≠ "user" := by
  simp [findLastUserMessage, List.find?_eq_none]

/-- A successful reverse scan splits the history into the part before the
located message, the located user message, and a user-free tail. -/
theorem findLastUserMessage_some_decomp (msgs : List MessageWithParts)
    (m : MessageWithParts) (h : findLastUserMessage msgs = some m) :
    ∃ before after, msgs = before ++ m :: after ∧ m.info.role = "user" ∧
      ∀ x ∈ after, x.info.role ≠ "user" := by
  unfold findLastUserMessage at h
  rw [List.find?_eq_some] at h
  obtain ⟨hm, as, bs, hrev, hall⟩ := h
  refine ⟨bs.reverse, as.reverse, ?_, by simpa using hm, ?_⟩
  · have h2 := congrArg List.reverse hrev
    rw [List.reverse_reverse] at h2
    rw [h2]
    simp
  · intro x hx
    have hx' : x ∈ as := by simpa using hx
    simpa using hall x hx'

/-- `findIdx?` on a list whose prefix fails the test and whose next element
passes it returns the prefix length. -/
theorem findIdx?_append_cons {α : Type _} (q : α → Bool) (l₁ l₂ : List α) (b : α)
    (h₁ : ∀ x ∈ l₁, q x = false) (hb : q b = true) :
    (l₁ ++ b :: l₂).findIdx? q = some l₁.length := by
  induction l₁ with
  | nil => simp [List.findIdx?_cons, hb]
  | cons a l ih =>
    have ha : q a = false := h₁ a (List.mem_cons_self a l)
    have ih' := ih fun x hx => h₁ x (List.mem_cons_of_mem a hx)
    simp [List.findIdx?_cons, ha, List.findIdx?_succ, ih']

/-- When no earlier message shares the located message's identifier, the
revert target is the last message before it (none when it is first). -/
theorem findRevertTarget_of_decomp (before after : List MessageWithParts)
    (m : MessageWithParts)
    (hfresh : ∀ x ∈ before, x.info.id ≠ m.info.id) :
    findRevertTarget (before ++ m :: after) m = before.getLast? := by
  have hidx : (before ++ m :: after).findIdx? (fun x => x.info.id == m.info.id)
      = some before.length :=
    findIdx?_append_cons _ before after m (fun x hx => by simp [hfresh x hx]) (by simp)
  unfold findRevertTarget
  rw [hidx]
  cases before with
  | nil => simp
  | cons a l =>
    simp only [List.length_cons]
    rw [if_pos (Nat.succ_pos l.length)]
    rw [Nat.succ_sub_one]
    rw [List.getElem?_append_left (by simp)]
    rw [List.getLast?_eq_getElem?]
    simp

/-- When the revert target is absent, the fallback sequence performs no
revert call (the trace is abort, fetch, then at most the final prompt). -/
theorem no_revert_in_trace (host : Host) (fallbackModel sessionID : String)
    (msgs : List MessageWithParts) (lastUser : MessageWithParts)
    (habort : host.abortOk = true) (hfetch : host.fetchOk = true)
    (hdata : host.fetchData = some msgs) (hne : msgs ≠ [])
    (hfind : findLastUserMessage msgs = some lastUser)
    (hrt : findRevertTarget msgs lastUser = none) :
    ∀ sid mid, HostCall.revert sid mid ∉ runFallbackSequence host fallbackModel sessionID := by
  intro sid mid
  have hseq : runFallbackSequence host fallbackModel sessionID
      = HostCall.abort sessionID :: HostCall.fetchMessages sessionID ::
        promptCalls fallbackModel sessionID lastUser := by
    simp [runFallbackSequence, habort, hfetch, hdata, hne, hfind,
      fallbackFromUserMessage, hrt]
  rw [hseq]
  simp only [promptCalls]
  split <;> simp

/-- C8 as amended (message identifiers assumed pairwise distinct): for every
fetched history, the reverse scan selects the most recent message with role
user (none exactly when no user message exists); the revert target is the
message immediately preceding the located message in the forward-ordered
history (its predecessor via `getLast?` of the prefix), and when the located
message is at index 0 no revert target exists and no revert host call appears
in the fallback sequence's trace. -/
theorem lastUser_revertTarget_spec (msgs : List MessageWithParts)
    (hnodup : (msgs.map fun x => x.info.id).Nodup) :
    (findLastUserMessage msgs = none ↔ ∀ x ∈ msgs, x.info.role ≠ "user") ∧
    (∀ m, findLastUserMessage msgs = some m →
        ∃ before after, msgs = before ++ m :: after ∧ m.info.role = "user" ∧
          (∀ x ∈ after, x.info.role ≠ "user") ∧
          findRevertTarget msgs m = before.getLast?) ∧
    (∀ (host : Host) (fallbackModel sessionID : String) (m : MessageWithParts)
        (rest : List MessageWithParts),
      host.abortOk = true → host.fetchOk = true → host.fetchData = some msgs →
      msgs = m :: rest → findLastUserMessage msgs = some m →
      findRevertTarget msgs m = none ∧
      ∀ sid mid, HostCall.revert sid mid ∉ runFallbackSequence host fallbackModel sessionID) := by
  refine ⟨findLastUserMessage_none_iff msgs, ?_, ?_⟩
  · intro m hfind
    obtain ⟨before, after, hdecomp, hrole, hafter⟩ :=
      findLastUserMessage_some_decomp msgs m hfind
    have hfresh : ∀ x ∈ before, x.info.id ≠ m.info.id := by
      subst hdecomp
      rw [List.map_append, List.map_cons] at hnodup
      have hnotmem := (List.nodup_cons.mp (List.nodup_middle.mp hnodup)).1
      intro x hx heq
      exact hnotmem (List.mem_append_left _ (heq ▸ List.mem_map_of_mem _ hx))
    refine ⟨before, after, hdecomp, hrole, hafter, ?_⟩
    rw [hdecomp]
    exact findRevertTarget_of_decomp before after m hfresh
  · intro host fallbackModel sessionID m rest habort hfetch hdata hhead hfind
    have hrt : findRevertTarget msgs m = none := by
      rw [hhead]
      simp [findRevertTarget, List.findIdx?_cons]
    exact ⟨hrt, no_revert_in_trace host fallbackModel sessionID msgs m habort hfetch hdata
      (by rw [hhead]; simp) hfind hrt⟩

/-- C8, counterexample: in `dupMsgs` two distinct messages share identifier
`a`. The reverse scan selects the user message at index 2 — not the first
message of the history, so the claim designates the assistant message at
index 1 as the revert target — yet the code finds identifier `a` at index 0
and produces no revert target. -/
theorem duplicate_id_no_revert_counterexample :
    findLastUserMessage dupMsgs = some (mkMessage "a" "user" (some "coder")) ∧
    dupMsgs[2]? = some (mkMessage "a" "user" (some "coder")) ∧
    mkMessage "a" "user" (some "coder") ≠ mkMessage "a" "user" none ∧
    findRevertTarget dupMsgs (mkMessage "a" "user" (some "coder")) = none ∧
    findRevertTarget dupMsgs (mkMessage "a" "user" (some "coder"))
      ≠ some (mkMessage "b" "assistant" none) := by decide

/-- Witness for `lastUser_revertTarget_spec`: on the two-message history
`c8Msgs`, whose only user message is first, there is no revert target and the
sequence's trace holds no revert call. -/
theorem lastUser_revertTarget_spec_witness :
    findRevertTarget c8Msgs (mkMessage "m1" "user" none) = none ∧
    ∀ sid mid, HostCall.revert sid mid ∉ runFallbackSequence (hostFetch c8Msgs) "m" "s1" :=
  (lastUser_revertTarget_spec c8Msgs (by decide)).2.2 (hostFetch c8Msgs) "m" "s1"
    (mkMessage "m1" "user" none) [mkMessage "m2" "assistant" none]
    rfl rfl rfl rfl (by decide)

end RateLimitFallback
